import Mathlib

/-!
Verification development for the Todo REST backend: a shallow embedding of
its SQL-builder, repository, validation-pipeline and service layers,
together with theorems settling the specification claims about them.
-/

namespace TodoApp

/-- Status enum for todos (`src/domain/types.py`, `TodoStatus`). -/
inductive TodoStatus where
  | active
  | inactive
deriving DecidableEq, Repr

/-- Status enum for tasks (`src/domain/types.py`, `TaskStatus`). -/
inductive TaskStatus where
  | pending
  | complete
  | postponed
deriving DecidableEq, Repr

/-- Priority enum for tasks (`src/domain/types.py`, `TaskPriority`). -/
inductive TaskPriority where
  | low
  | medium
  | high
deriving DecidableEq, Repr

/-- A dynamically typed value, standing for the Python values that flow
through payload dicts and database rows. -/
inductive Value where
  | vStr (s : String)
  | vInt (n : Int)
  | vTodoStatus (s : TodoStatus)
  | vTaskStatus (s : TaskStatus)
  | vPriority (p : TaskPriority)
  | vTime (t : Int)
  | vNull
deriving DecidableEq, Repr

/-! ## SQL builder (`src/data/sql.py`), pure string construction -/

/-- Template `basic_select` from `src/data/sql.py`, with the three format
fields substituted. -/
def basic_select (columns table_name column : String) : String :=
  "\n    SELECT " ++ columns ++ "\n    FROM " ++ table_name ++
    "\n    WHERE " ++ column ++ " = $1\n"

/-- Template `select_order_limit` from `src/data/sql.py`, with the four
format fields substituted. -/
def select_order_limit
    (columns table_name where_clause order_by : String) : String :=
  "\n    SELECT " ++ columns ++ "\n    FROM " ++ table_name ++
    "\n    " ++ where_clause ++ "\n    ORDER BY " ++ order_by ++
    "\n    LIMIT $1\n"

/-- Query `prefetch_tasks_query` from `src/data/sql.py`. -/
def prefetch_tasks_query : String :=
  "\n    SELECT *\n    FROM tasks\n    WHERE todo_id = $1" ++
    "\n    ORDER BY task_id\n    LIMIT $2\n"

/-- Template `insert_values` from `src/data/sql.py`. -/
def insert_values (table_name columns values : String) : String :=
  "\n    INSERT INTO " ++ table_name ++ "\n    (" ++ columns ++
    ")\n    VALUES " ++ values ++ "\n    RETURNING *\n"

/-- Template `update_table` from `src/data/sql.py`. -/
def update_table (table_name columns column : String) : String :=
  "\n    UPDATE " ++ table_name ++ "\n    SET " ++ columns ++
    "\n    WHERE " ++ column ++ " = $1\n    RETURNING *\n"

/-- Template `delete_from_table` from `src/data/sql.py`. -/
def delete_from_table (table_name column : String) : String :=
  "\n    DELETE\n    FROM " ++ table_name ++ "\n    WHERE " ++ column ++
    " = $1\n    RETURNING " ++ column ++ "\n"

/-- Function `generate_select` from `src/data/sql.py` (no explicit column list). -/
def generate_select (table_name where_column : String)
    (columns : List String := []) : String :=
  let cols := if columns = [] then "*" else String.intercalate ", " columns
  basic_select cols table_name where_column

/-- A run of consecutive placeholders `$(i), $(i+1), ...` rendered as
Python's `f"${j}"` does, one per element of `List.range len`. -/
def placeholderRun (i len : Nat) : List String :=
  (List.range len).map (fun k => "$" ++ toString (i + k))

/-- Function `generate_insert` from `src/data/sql.py`: one placeholder per column per
row; the mutable counter `i` of the Python loop becomes a fold. -/
def generate_insert (table_name : String) (col_names : List String)
    (values : List (List Value)) : String :=
  let columns := String.intercalate ", " col_names
  let parts := (values.foldl
    (fun (acc : List String × Nat) value =>
      let part := "(" ++
        String.intercalate ", " (placeholderRun acc.2 value.length) ++ ")"
      (acc.1 ++ [part], acc.2 + value.length))
    ([], 1)).1
  insert_values table_name columns (String.intercalate ", " parts)

/-- Function `generate_update` from `src/data/sql.py`: `SET key = $i` for the payload
keys, numbering from 2 in iteration order; `$1` is the key column. -/
def generate_update (table_name where_column : String)
    (update_data : List (String × Value)) : String :=
  let columns := String.intercalate ", "
    (update_data.enum.map (fun p => p.2.1 ++ " = $" ++ toString (p.1 + 2)))
  update_table table_name columns where_column

/-- Function `generate_delete` from `src/data/sql.py`. -/
def generate_delete (table_name where_column : String) : String :=
  delete_from_table table_name where_column

/-! ## Repository type-cast tables and filter-predicate builder
(`src/data/repository.py`) -/

/-- Table `Repository.pg_type_casts["todos"]` as written in the source, in source
order (note the source spells the last key `udpated_at`). -/
def pg_type_casts_todos : List (String × String) :=
  [("owner", ""),
   ("todo_id", "::int"),
   ("status", "::todo_status"),
   ("created_at", "::timestamp"),
   ("udpated_at", "::timestamp")]

/-- Table `Repository.pg_type_casts["tasks"]` as written in the source, in source
order (note the source spells the last key `udpated_at`). -/
def pg_type_casts_tasks : List (String × String) :=
  [("brief", ""),
   ("contents", ""),
   ("category", ""),
   ("task_id", "::int"),
   ("todo_id", "::int"),
   ("status", "::task_status"),
   ("priority", "::task_priority"),
   ("due", "::timestamp"),
   ("created_at", "::timestamp"),
   ("udpated_at", "::timestamp")]

/-- A Python `dict[col]` lookup on a cast table; `none` models the
`KeyError` raised when the column has no declared cast. -/
def lookupCast (type_cast : List (String × String)) (col : String) :
    Option String :=
  type_cast.lookup col

/-- The fragment one filter column contributes in
`Repository._prepare_query_args`: `col = any (values ($i::cast), ...)`,
with `len` placeholders starting at `i`. -/
def columnFragment (col cast : String) (i len : Nat) : String :=
  col ++ " = any (values " ++
    String.intercalate ", "
      ((List.range len).map (fun k => "($" ++ toString (i + k) ++ cast ++ ")"))
    ++ ")"

/-- The loop of `Repository._prepare_query_args`: one fragment per filter
column, the placeholder counter advancing by the column's value count;
`none` models the `KeyError` on a column missing from the cast table. -/
def preparePartsAux (type_cast : List (String × String)) :
    List (String × List Value) → Nat → Option (List String)
  | [], _ => some []
  | (col, vals) :: rest, i =>
    match lookupCast type_cast col with
    | none => none
    | some cast =>
      match preparePartsAux type_cast rest (i + vals.length) with
      | none => none
      | some parts => some (columnFragment col cast i vals.length :: parts)

/-- Method `Repository._prepare_query_args(query_args, i)` from
`src/data/repository.py`: fragments joined with ` AND `. -/
def prepare_query_args (type_cast : List (String × String))
    (query_args : List (String × List Value)) (i : Nat) : Option String :=
  (preparePartsAux type_cast query_args i).map (String.intercalate " AND ")

/-- Written from the spec's words: the fragment claimed for one filter
column, `col = any (values ($i::cast), ($i+1::cast), ...)` — exactly
`count` placeholders, numbered consecutively from `firstIndex`, each
carrying the column's cast. -/
def specFragment (col cast : String) (firstIndex count : Nat) : String :=
  col ++ " = any (values "
    ++ String.intercalate ", "
      ((List.range count).map
        (fun k => "($" ++ toString (firstIndex + k) ++ cast ++ ")"))
    ++ ")"

/-- Written from the spec's words: the number of values contributed by the
columns before column `k`, which is how far the consecutive numbering has
advanced when column `k` starts. -/
def valuesBefore (query_args : List (String × List Value)) (k : Nat) : Nat :=
  ((query_args.take k).map (fun q => q.2.length)).sum

/-- Written from the spec's words: the whole claimed predicate — per
column in iteration order, its fragment with placeholders starting at
`startIndex` plus the value count of the preceding columns (so the
numbering is consecutive from `startIndex` across all columns, one
placeholder per value), the cast being the one the cast table declares
for the column — joined with ` AND `. -/
def specJoinedPredicate (type_cast : List (String × String))
    (query_args : List (String × List Value)) (startIndex : Nat) : String :=
  String.intercalate " AND "
    ((List.range query_args.length).map (fun k =>
      let p := query_args.getD k ("", [])
      specFragment p.1 ((lookupCast type_cast p.1).getD "")
        (startIndex + valuesBefore query_args k) p.2.length))

/-! ## `Repository._fetch` query construction and keyset semantics -/

/-- The SELECT query text built by `Repository._fetch`
(`src/data/repository.py`): implicit `WHERE pk > $2`, explicit filters
appended with ` AND ` when present, default ordering by the primary key;
`none` models the `KeyError` from an unmapped filter column. -/
def fetchQuery (table pk : String) (type_cast : List (String × String))
    (select_columns select_order_by : List String)
    (filters : List (String × List Value)) : Option String :=
  let order_by := String.intercalate ", "
    (if select_order_by = [] then [pk] else select_order_by)
  let columns :=
    if select_columns = [] then "*"
    else String.intercalate ", " select_columns
  let base := "WHERE " ++ pk ++ " > $2"
  if filters = [] then
    some (select_order_limit columns table base order_by)
  else
    (prepare_query_args type_cast filters 3).map
      (fun qa => select_order_limit columns table (base ++ " AND " ++ qa)
        order_by)

/-- Insert into a list kept sorted ascending (helper for the `ORDER BY`
semantics below). -/
def insertAsc (x : Nat) : List Nat → List Nat
  | [] => [x]
  | y :: ys => if x ≤ y then x :: y :: ys else y :: insertAsc x ys

/-- Sort a list of primary keys ascending. -/
def sortAsc (l : List Nat) : List Nat :=
  l.foldr insertAsc []

/-- Relational semantics of the query `_fetch` generates when no explicit
filters and no `order_by` are given: keep the rows whose primary key
exceeds `offset` (`WHERE pk > $2`), order by primary key ascending
(`ORDER BY pk`), and keep the first `limit` rows (`LIMIT $1`). The table
state is the list of its rows' primary keys. -/
def runKeysetSelect (tablePks : List Nat) (limit offset : Nat) : List Nat :=
  (sortAsc (tablePks.filter (fun pk => offset < pk))).take limit

/-! ## Validation pipeline (`src/service/validation.py`) -/

/-- The two error signals of `src/service/validation.py`: `BadRequest`
for input-validation failures, `BadResponse` for output-validation
failures. -/
inductive ServiceError where
  | badRequest
  | badResponse
deriving DecidableEq, Repr

/-- The wrapper built by `validate_input_output`
(`src/service/validation.py`): validate the keyword arguments against the
input model (failure raises `BadRequest` before the wrapped call), run the
wrapped operation on the validated data over the store, pass a `None`
result through untouched, and validate a non-`None` result against the
output model (failure raises `BadResponse`). The final `Nat` counts how
often the wrapped operation ran. -/
def validate_input_output {κ α ρ β σ : Type}
    (input_model : κ → Option α) (output_model : ρ → Option β)
    (func : α → σ → Option ρ × σ) (kwargs : κ) (store : σ) :
    Except ServiceError (Option β) × σ × Nat :=
  match input_model kwargs with
  | none => (.error .badRequest, store, 0)
  | some valid =>
    match func valid store with
    | (none, store2) => (.ok none, store2, 1)
    | (some result, store2) =>
      match output_model result with
      | none => (.error .badResponse, store2, 1)
      | some v => (.ok (some v), store2, 1)

/-! ## Service schemas (`src/service/schemas.py`, `src/web/api/schemas.py`) -/

/-- Option-valued traversal of a list, modelling pydantic validating each
element of a list field and failing if any element fails. -/
def traverseOpt {γ δ : Type} (f : γ → Option δ) : List γ → Option (List δ)
  | [] => some []
  | x :: xs =>
    match f x with
    | none => none
    | some y => (traverseOpt f xs).map (y :: ·)

/-- Parse a `PositiveInt` list element (pydantic `Field(gt=0)`). -/
def parsePositiveInt : Value → Option Int
  | Value.vInt n => if 0 < n then some n else none
  | _ => none

/-- Parse a string list element. -/
def parseStr : Value → Option String
  | Value.vStr s => some s
  | _ => none

/-- Parse a `TaskStatus` list element. -/
def parseTaskStatus : Value → Option TaskStatus
  | Value.vTaskStatus s => some s
  | _ => none

/-- Parse a `TodoStatus` value. -/
def parseTodoStatus : Value → Option TodoStatus
  | Value.vTodoStatus s => some s
  | _ => none

/-- Parse a `TaskPriority` list element. -/
def parsePriority : Value → Option TaskPriority
  | Value.vPriority p => some p
  | _ => none

/-- Parse a datetime list element. -/
def parseTime : Value → Option Int
  | Value.vTime t => some t
  | _ => none

/-- Look up an optional list-valued filter field: absent means `None`,
present must parse elementwise. -/
def parseOptList {γ : Type} (f : Value → Option γ)
    (d : List (String × List Value)) (name : String) :
    Option (Option (List γ)) :=
  match d.lookup name with
  | none => some none
  | some vals => (traverseOpt f vals).map some

/-- Validated `TasksFilter` (`src/service/schemas.py`): `todo_id` is the
only required field. -/
structure TasksFilter where
  task_id : Option (List Int)
  todo_id : List Int
  brief : Option (List String)
  category : Option (List String)
  status : Option (List TaskStatus)
  priority : Option (List TaskPriority)
  due : Option (List Int)
  created_at : Option (List Int)
  updated_at : Option (List Int)
deriving DecidableEq, Repr

/-- Names of the declared `TasksFilter` fields (`extra = "forbid"`). -/
def tasksFilterFieldNames : List String :=
  ["task_id", "todo_id", "brief", "category", "status", "priority",
   "due", "created_at", "updated_at"]

/-- Pydantic validation of a filters dict against `TasksFilter`
(`src/service/schemas.py`): unknown keys are rejected, `todo_id` is
required, every present field must parse. -/
def tasksFilterValidate (d : List (String × List Value)) :
    Option TasksFilter :=
  if d.all (fun p => p.1 ∈ tasksFilterFieldNames) then
    match d.lookup "todo_id" with
    | none => none
    | some tv =>
      match traverseOpt parsePositiveInt tv,
        parseOptList parsePositiveInt d "task_id",
        parseOptList parseStr d "brief",
        parseOptList parseStr d "category",
        parseOptList parseTaskStatus d "status",
        parseOptList parsePriority d "priority",
        parseOptList parseTime d "due",
        parseOptList parseTime d "created_at",
        parseOptList parseTime d "updated_at" with
      | some ti, some taskIds, some briefs, some categories, some statuses,
          some priorities, some dues, some createds, some updateds =>
        some ⟨taskIds, ti, briefs, categories, statuses, priorities, dues,
          createds, updateds⟩
      | _, _, _, _, _, _, _, _, _ => none
  else none

/-- Setting `settings.DEFAULT_PAGE_LIMIT`. -/
def DEFAULT_PAGE_LIMIT : Nat := 10

/-- Setting `settings.MAX_PAGE_LIMIT`. -/
def MAX_PAGE_LIMIT : Nat := 100

/-- Raw keyword arguments of `TaskService.get_many`
(`limit`, `offset`, `filters`). -/
structure GetTasksQueryIn where
  limit : Nat := DEFAULT_PAGE_LIMIT
  offset : Nat := 0
  filters : Option (List (String × List Value)) := none

/-- Validated `GetTasksQuery` (`src/service/schemas.py`). -/
structure GetTasksQuery where
  limit : Nat
  offset : Nat
  filters : Option TasksFilter
deriving DecidableEq, Repr

/-- Pydantic validation of `TaskService.get_many` keyword arguments against
`GetTasksQuery`: `limit` is a `PageLimitField` (`0 < limit < 100`), the
filters dict, when present, must validate as a `TasksFilter`. -/
def getTasksQueryValidate (k : GetTasksQueryIn) : Option GetTasksQuery :=
  if 0 < k.limit ∧ k.limit < MAX_PAGE_LIMIT then
    match k.filters with
    | none => some ⟨k.limit, k.offset, none⟩
    | some d => (tasksFilterValidate d).map
        (fun tf => ⟨k.limit, k.offset, some tf⟩)
  else none

/-- Raw query arguments of `GET /todos/{todo_id}/tasks/`
(`ListTasksQueryArgs` in `src/web/api/schemas.py`), fields in pydantic
declaration order: the `CommonQueryArgs` fields first. -/
structure ListTasksQueryArgs where
  limit : Nat := DEFAULT_PAGE_LIMIT
  offset : Nat := 0
  created_at : Option (List Value) := none
  updated_at : Option (List Value) := none
  task_id : Option (List Value) := none
  brief : Option (List Value) := none
  category : Option (List Value) := none
  status : Option (List Value) := none
  priority : Option (List Value) := none
  due : Option (List Value) := none

/-- One entry of a `model_dump(exclude_none=True)` result: nothing for an
absent optional field, a single binding otherwise. -/
def optEntry (name : String) (v : Option (List Value)) :
    List (String × List Value) :=
  match v with
  | none => []
  | some l => [(name, l)]

/-- Method `to_service_query_schema` of `CommonQueryArgs`
(`src/web/api/schemas.py`): dump the non-`None` fields, pop `limit` and
`offset`, keep the rest as the filters dict. -/
def ListTasksQueryArgs.to_service_query_schema (q : ListTasksQueryArgs) :
    Nat × Nat × List (String × List Value) :=
  (q.limit, q.offset,
    optEntry "created_at" q.created_at ++ optEntry "updated_at" q.updated_at
      ++ optEntry "task_id" q.task_id ++ optEntry "brief" q.brief
      ++ optEntry "category" q.category ++ optEntry "status" q.status
      ++ optEntry "priority" q.priority ++ optEntry "due" q.due)

/-- Python `dict.update`: replace the value in place when the key exists,
append the binding otherwise. -/
def dictUpdate (d : List (String × List Value)) (k : String)
    (v : List Value) : List (String × List Value) :=
  if d.any (fun p => p.1 = k) then
    d.map (fun p => if p.1 = k then (k, v) else p)
  else d ++ [(k, v)]

/-- The filters dict the handler `list_tasks` (`src/web/api/task.py`)
passes to `TaskService.get_many`: the client's filters with
`todo_id=[path todo_id]` written over them. -/
def list_tasksFilters (q : ListTasksQueryArgs) (todo_id : Int) :
    List (String × List Value) :=
  dictUpdate q.to_service_query_schema.2.2 "todo_id" [Value.vInt todo_id]

/-! ## Update payloads (`src/domain/models.py`) -/

/-- Validated `UpdateTodo` payload: every field optional. -/
structure UpdateTodoPayload where
  owner : Option String := none
  status : Option TodoStatus := none
  created_at : Option Int := none
  updated_at : Option Int := none
deriving DecidableEq, Repr

/-- Validated `UpdateTask` payload: every field optional. -/
structure UpdateTaskPayload where
  brief : Option String := none
  todo_id : Option Int := none
  contents : Option String := none
  status : Option TaskStatus := none
  priority : Option TaskPriority := none
  category : Option String := none
  due : Option Int := none
  created_at : Option Int := none
  updated_at : Option Int := none
deriving DecidableEq, Repr

/-- Validator `NonEmptyUpdateMixin.check_at_least_one_non_empty_field`
(`src/domain/models.py`), a `mode="before"` check on the raw payload dict:
it rejects when every value is `None` — vacuously true on the empty dict,
so the empty payload is rejected too. -/
def allValuesNone (d : List (String × Value)) : Bool :=
  d.all (fun p => p.2 = Value.vNull)

/-- Look up an optional scalar field of an update payload: absent or
explicit `null` yields `None`, anything else must parse. -/
def parseOptVal {γ : Type} (f : Value → Option γ)
    (d : List (String × Value)) (name : String) : Option (Option γ) :=
  match d.lookup name with
  | none => some none
  | some Value.vNull => some none
  | some v => (f v).map some

/-- Pydantic validation of a raw dict against `UpdateTodo`
(`src/domain/models.py`): the non-empty-update check runs first
(`mode="before"`), then unknown keys are rejected and fields parsed. -/
def updateTodoValidate (d : List (String × Value)) :
    Option UpdateTodoPayload :=
  if allValuesNone d then none
  else if d.all
      (fun p => p.1 ∈ ["owner", "status", "created_at", "updated_at"]) then
    match parseOptVal parseStr d "owner",
      parseOptVal parseTodoStatus d "status",
      parseOptVal parseTime d "created_at",
      parseOptVal parseTime d "updated_at" with
    | some o, some s, some c, some u => some ⟨o, s, c, u⟩
    | _, _, _, _ => none
  else none

/-- Pydantic validation of a raw dict against `UpdateTask`
(`src/domain/models.py`), analogous to `updateTodoValidate`. -/
def updateTaskValidate (d : List (String × Value)) :
    Option UpdateTaskPayload :=
  if allValuesNone d then none
  else if d.all (fun p => p.1 ∈ ["brief", "todo_id", "contents", "status",
      "priority", "category", "due", "created_at", "updated_at"]) then
    match parseOptVal parseStr d "brief",
      parseOptVal parsePositiveInt d "todo_id",
      parseOptVal parseStr d "contents",
      parseOptVal parseTaskStatus d "status",
      parseOptVal parsePriority d "priority",
      parseOptVal parseStr d "category",
      parseOptVal parseTime d "due",
      parseOptVal parseTime d "created_at",
      parseOptVal parseTime d "updated_at" with
    | some b, some ti, some co, some s, some pr, some ca, some du, some cr,
        some up => some ⟨b, ti, co, s, pr, ca, du, cr, up⟩
    | _, _, _, _, _, _, _, _, _ => none
  else none

/-- Raw keyword arguments of `TodoService.update`
(`UpdateTodoQuery` in `src/service/schemas.py`). -/
structure UpdateTodoQueryIn where
  todo_id : Int
  payload : List (String × Value)

/-- Raw keyword arguments of `TaskService.update`
(`UpdateTaskQuery` in `src/service/schemas.py`). -/
structure UpdateTaskQueryIn where
  task_id : Int
  payload : List (String × Value)

/-- Pydantic validation against `UpdateTodoQuery`: positive key, payload
validated as `UpdateTodo`. -/
def updateTodoQueryValidate (k : UpdateTodoQueryIn) :
    Option (Int × UpdateTodoPayload) :=
  if 0 < k.todo_id then
    (updateTodoValidate k.payload).map (fun p => (k.todo_id, p))
  else none

/-- Pydantic validation against `UpdateTaskQuery`: positive key, payload
validated as `UpdateTask`. -/
def updateTaskQueryValidate (k : UpdateTaskQueryIn) :
    Option (Int × UpdateTaskPayload) :=
  if 0 < k.task_id then
    (updateTaskValidate k.payload).map (fun p => (k.task_id, p))
  else none

/-- One entry of a `model_dump(exclude_none=True)` on a scalar optional
field. -/
def optDump {γ : Type} (name : String) (f : γ → Value) :
    Option γ → List (String × Value)
  | none => []
  | some x => [(name, f x)]

/-- Dump of a validated `UpdateTodo` with `exclude_none=True`
(`valid_data.model_dump(exclude_none=True)` in
`src/service/validation.py`): exactly the non-`None` fields, in field
declaration order. -/
def UpdateTodoPayload.dumpExcludeNone (u : UpdateTodoPayload) :
    List (String × Value) :=
  optDump "owner" Value.vStr u.owner
    ++ optDump "status" Value.vTodoStatus u.status
    ++ optDump "created_at" Value.vTime u.created_at
    ++ optDump "updated_at" Value.vTime u.updated_at

/-- Dump of a validated `UpdateTask` with `exclude_none=True`. -/
def UpdateTaskPayload.dumpExcludeNone (u : UpdateTaskPayload) :
    List (String × Value) :=
  optDump "brief" Value.vStr u.brief
    ++ optDump "todo_id" Value.vInt u.todo_id
    ++ optDump "contents" Value.vStr u.contents
    ++ optDump "status" Value.vTaskStatus u.status
    ++ optDump "priority" Value.vPriority u.priority
    ++ optDump "category" Value.vStr u.category
    ++ optDump "due" Value.vTime u.due
    ++ optDump "created_at" Value.vTime u.created_at
    ++ optDump "updated_at" Value.vTime u.updated_at

/-- The UPDATE statement `Service.update` ends up issuing for a todo:
`Repository.update_one` passes the stripped payload to
`generate_update("todos", "todo_id", update_data)`. -/
def todoUpdateQuery (u : UpdateTodoPayload) : String :=
  generate_update "todos" "todo_id" u.dumpExcludeNone

/-- The UPDATE statement `Service.update` ends up issuing for a task. -/
def taskUpdateQuery (u : UpdateTaskPayload) : String :=
  generate_update "tasks" "task_id" u.dumpExcludeNone

/-- Relational semantics of the generated UPDATE on one row (the row an
assoc list from column name to value): a column named in `update_data` is
set to its payload value, every column that is not named keeps its old
value. -/
def applyUpdate (row update_data : List (String × Value)) :
    List (String × Value) :=
  row.map (fun p =>
    match update_data.lookup p.1 with
    | some v => (p.1, v)
    | none => p)

/-! ## Create payloads and row models
(`src/domain/models.py`, `src/data/result.py`) -/

/-- Factory `datetime_with_delta` (`src/utils.py`): current time plus the
requested delta; time is modelled as seconds. -/
def datetime_with_delta (delta now : Int) : Int := now + delta

/-- One day in seconds, the `{"days": 1}` delta of `CreateTask.due`. -/
def oneDay : Int := 86400

/-- Raw `CreateTask` payload: required `brief`, `todo_id`, `category`;
optional `contents`, `status`, `priority`, `due` (`none` = omitted). -/
structure CreateTaskIn where
  brief : String
  todo_id : Int
  contents : Option String := none
  status : Option TaskStatus := none
  priority : Option TaskPriority := none
  category : String
  due : Option Int := none

/-- Validated `CreateTask` payload: defaults filled in. -/
structure CreateTaskValidated where
  brief : String
  todo_id : Int
  contents : Option String
  status : TaskStatus
  priority : TaskPriority
  category : String
  due : Int
deriving DecidableEq, Repr

/-- Pydantic validation against `CreateTask` (`src/domain/models.py`):
`todo_id` must be positive; omitted `status` defaults to `pending`,
`priority` to `low`, `contents` to `None`, and `due` to the
`datetime_with_delta({"days": 1})` factory, i.e. validation time plus one
day. -/
def createTaskValidate (now : Int) (p : CreateTaskIn) :
    Option CreateTaskValidated :=
  if 0 < p.todo_id then
    some ⟨p.brief, p.todo_id, p.contents,
      p.status.getD TaskStatus.pending, p.priority.getD TaskPriority.low,
      p.category, p.due.getD (datetime_with_delta oneDay now)⟩
  else none

/-- Raw `CreateTodo` payload. -/
structure CreateTodoIn where
  owner : String
  status : Option TodoStatus := none

/-- Validated `CreateTodo` payload (`src/domain/models.py`): omitted
`status` defaults to `active`. -/
def createTodoValidate (p : CreateTodoIn) : String × TodoStatus :=
  (p.owner, p.status.getD TodoStatus.active)

/-- Row model `TaskRow` (`src/data/result.py`) / persisted `tasks` row. -/
structure TaskRow where
  task_id : Int
  brief : String
  todo_id : Int
  contents : Option String
  status : TaskStatus
  priority : TaskPriority
  category : String
  due : Int
  created_at : Int
  updated_at : Int
deriving DecidableEq, Repr

/-- Persisted `todos` row, without the in-memory `tasks` attachment. -/
structure TodoRecord where
  todo_id : Int
  owner : String
  status : TodoStatus
  created_at : Int
  updated_at : Int
deriving DecidableEq, Repr

/-- Row model `TodoRow` (`src/data/result.py`): a persisted todo plus the
`tasks` field, `none` when tasks were not requested. -/
structure TodoRow where
  todo_id : Int
  owner : String
  status : TodoStatus
  created_at : Int
  updated_at : Int
  tasks : Option (List TaskRow)
deriving DecidableEq, Repr

/-- Storage state visible to the repositories: the two tables. -/
structure Db where
  todos : List TodoRecord
  tasks : List TaskRow
deriving DecidableEq, Repr

/-- Storage semantics of `INSERT INTO tasks ... RETURNING *`: the storage
assigns the serial key and the timestamp defaults, the payload supplies
every other column. -/
def insertTaskRow (newId dbNow : Int) (v : CreateTaskValidated) : TaskRow :=
  ⟨newId, v.brief, v.todo_id, v.contents, v.status, v.priority, v.category,
    v.due, dbNow, dbNow⟩

/-- Storage semantics of `INSERT INTO todos ... RETURNING *`. -/
def insertTodoRecord (newId dbNow : Int) (owner : String)
    (status : TodoStatus) : TodoRecord :=
  ⟨newId, owner, status, dbNow, dbNow⟩

/-- Result of `TodoRepository.insert_one` (`src/data/repository.py`): the
returned `TodoRow` is built by `_create_row(record)` whose `tasks`
parameter defaults to `None`. -/
def todoInsertedRow (r : TodoRecord) : TodoRow :=
  ⟨r.todo_id, r.owner, r.status, r.created_at, r.updated_at, none⟩

/-- Storage semantics of `basic_select` on the `todos` table: first row
with the matching primary key. -/
def findTodo (todos : List TodoRecord) (todo_id : Int) :
    Option TodoRecord :=
  todos.find? (fun t => t.todo_id = todo_id)

/-- Insertion into a list of tasks kept sorted by `task_id` ascending. -/
def insertByTaskId (x : TaskRow) : List TaskRow → List TaskRow
  | [] => [x]
  | y :: ys =>
    if x.task_id ≤ y.task_id then x :: y :: ys else y :: insertByTaskId x ys

/-- Sort tasks by `task_id` ascending. -/
def sortByTaskId (l : List TaskRow) : List TaskRow :=
  l.foldr insertByTaskId []

/-- Storage semantics of `prefetch_tasks_query`: tasks of the given todo,
ordered by `task_id`, at most `n` of them. -/
def prefetchTasks (tasks : List TaskRow) (todo_id : Int) (n : Nat) :
    List TaskRow :=
  (sortByTaskId (tasks.filter (fun t => t.todo_id = todo_id))).take n

/-- Method `TodoRepository.fetch_one` (`src/data/repository.py`): `None`
when the todo is absent; the `tasks` field stays `None` when
`prefetch_tasks` is falsy and otherwise holds the (possibly empty)
prefetched list. -/
def TodoRepository.fetch_one (db : Db) (todo_id : Int)
    (prefetch_tasks : Nat := 0) : Option TodoRow :=
  match findTodo db.todos todo_id with
  | none => none
  | some t =>
    let tasks : Option (List TaskRow) :=
      if prefetch_tasks ≠ 0 then
        some (prefetchTasks db.tasks todo_id prefetch_tasks)
      else none
    some ⟨t.todo_id, t.owner, t.status, t.created_at, t.updated_at, tasks⟩

/-- Pydantic validation of a `TaskRow` against the `Task` output model
(`src/domain/models.py`): the ids must be positive; all fields are kept. -/
def taskOutputValidate (t : TaskRow) : Option TaskRow :=
  if 0 < t.task_id ∧ 0 < t.todo_id then some t else none

/-- Pydantic validation of a `TodoRow` against the `Todo` output model
(`src/domain/models.py`): positive id; `tasks` is `list[Task] | None`, so
`None` stays `None` and a list is validated elementwise. -/
def todoOutputValidate (r : TodoRow) : Option TodoRow :=
  if 0 < r.todo_id then
    match r.tasks with
    | none => some r
    | some ts => (traverseOpt taskOutputValidate ts).map
        (fun ts2 => { r with tasks := some ts2 })
  else none

/-! ## Delete (`src/data/repository.py`, `src/service/_base.py`) -/

/-- Storage semantics of the generated
`DELETE ... WHERE pk = $1 RETURNING pk` together with
`Connection.fetchval`: the key when a row was deleted, `None` when no row
matched; the table loses the matching rows. -/
def delete_one {ρ : Type} (getPk : ρ → Int) (table : List ρ) (pk : Int) :
    Option Int × List ρ :=
  if table.any (fun r => getPk r = pk) then
    (some pk, table.filter (fun r => ¬ getPk r = pk))
  else (none, table)

/-- Python truthiness of the optional key `Service.delete` converts with
`bool(deleted)`. -/
def pyBoolOptInt : Option Int → Bool
  | none => false
  | some n => n ≠ 0

/-- Method `Service.delete` (`src/service/_base.py`) over a table: the
boolean result and the table left behind. -/
def Service.delete {ρ : Type} (getPk : ρ → Int) (table : List ρ)
    (pk : Int) : Bool × List ρ :=
  let r := delete_one getPk table pk
  (pyBoolOptInt r.1, r.2)

/-- Declared from the spec's wording: the SET clause names the given
columns in order, with placeholders `$2` onward. -/
def setClauseSpec (names : List String) : String :=
  String.intercalate ", "
    (names.enum.map (fun p => p.2 ++ " = $" ++ toString (p.1 + 2)))

/-- Names of the non-`None` fields of an `UpdateTodo` payload, in field
declaration order. -/
def UpdateTodoPayload.nonNullNames (u : UpdateTodoPayload) : List String :=
  (if u.owner.isSome then ["owner"] else [])
    ++ (if u.status.isSome then ["status"] else [])
    ++ (if u.created_at.isSome then ["created_at"] else [])
    ++ (if u.updated_at.isSome then ["updated_at"] else [])

/-- Names of the non-`None` fields of an `UpdateTask` payload, in field
declaration order. -/
def UpdateTaskPayload.nonNullNames (u : UpdateTaskPayload) : List String :=
  (if u.brief.isSome then ["brief"] else [])
    ++ (if u.todo_id.isSome then ["todo_id"] else [])
    ++ (if u.contents.isSome then ["contents"] else [])
    ++ (if u.status.isSome then ["status"] else [])
    ++ (if u.priority.isSome then ["priority"] else [])
    ++ (if u.category.isSome then ["category"] else [])
    ++ (if u.due.isSome then ["due"] else [])
    ++ (if u.created_at.isSome then ["created_at"] else [])
    ++ (if u.updated_at.isSome then ["updated_at"] else [])

/-! ## Helper lemmas -/

/-- A list on whose members a key never occurs looks it up to nothing. -/
theorem lookup_eq_none_of_all_ne {β : Type} (d : List (String × β))
    (k : String) (h : ∀ p ∈ d, p.1 ≠ k) : d.lookup k = none := by
  induction d with
  | nil => rfl
  | cons p rest ih =>
    have hp : p.1 ≠ k := h p (by simp)
    have : (k == p.1) = false := by
      simp [beq_iff_eq]
      exact fun hk => hp hk.symm
    simp [List.lookup, this]
    intro a b hab hk
    exact h (a, b) (by simp [hab]) hk.symm

/-- Looked-up bindings are members. -/
theorem mem_of_lookup_eq_some {β : Type} {d : List (String × β)}
    {k : String} {v : β} (h : d.lookup k = some v) : (k, v) ∈ d := by
  induction d with
  | nil => simp [List.lookup] at h
  | cons p rest ih =>
    by_cases hk : k = p.1
    · subst hk
      simp [List.lookup] at h
      cases p with
      | mk a b =>
        simp only at h
        subst h
        exact List.mem_cons_self _ _
    · have : (k == p.1) = false := by simp [beq_iff_eq, hk]
      simp [List.lookup, this] at h
      exact List.mem_cons_of_mem _ (ih h)

/-! ## Claim C3 -/

/-- C3: the claim says every filterable column the external interface
declares — `updated_at` among them, for both entities — has an entry in
the per-entity type-cast table, so the filter-predicate builder's
missing-cast error branch is unreachable. The code violates this: both
cast tables spell the key `udpated_at`, so the lookup for the declared
filter column `updated_at` fails and building a filter predicate on it
hits the error branch (a `KeyError` at runtime). -/
theorem c3_updated_at_cast_missing :
    lookupCast pg_type_casts_todos "updated_at" = none
    ∧ lookupCast pg_type_casts_tasks "updated_at" = none
    ∧ prepare_query_args pg_type_casts_todos
        [("updated_at", [Value.vTime 0])] 3 = none
    ∧ prepare_query_args pg_type_casts_tasks
        [("updated_at", [Value.vTime 0])] 3 = none
    ∧ fetchQuery "todos" "todo_id" pg_type_casts_todos [] []
        [("updated_at", [Value.vTime 0])] = none := by
  refine ⟨by decide, by decide, by decide, by decide, ?_⟩
  have h1 : prepare_query_args pg_type_casts_todos
      [("updated_at", [Value.vTime 0])] 3 = none := by decide
  simp [fetchQuery, h1]

/-! ## Claim C5 -/

/-- C5: for every service operation wrapped by `validate_input_output`:
failing input validation raises `BadRequest` and the wrapped operation is
never invoked (the store is untouched and the call count is zero); a
`None` result of the wrapped operation is returned with output validation
skipped (the outcome does not depend on the output model); a non-`None`
result failing the output schema raises `BadResponse`, which is a signal
distinct from `BadRequest`. -/
theorem c5_validate_input_output_behaviour {κ α ρ β σ : Type}
    (im : κ → Option α) (f : α → σ → Option ρ × σ) (k : κ) (st : σ) :
    (im k = none → ∀ om : ρ → Option β,
      validate_input_output im om f k st = (.error .badRequest, st, 0))
    ∧ (∀ a, im k = some a → (f a st).1 = none → ∀ om : ρ → Option β,
      (validate_input_output im om f k st).1 = .ok none)
    ∧ (∀ a r (om : ρ → Option β), im k = some a → (f a st).1 = some r →
      om r = none →
      (validate_input_output im om f k st).1 = .error .badResponse)
    ∧ ServiceError.badResponse ≠ ServiceError.badRequest := by
  refine ⟨?_, ?_, ?_, by decide⟩
  · intro h om
    simp [validate_input_output, h]
  · intro a ha hf om
    rcases hfa : f a st with ⟨res, st2⟩
    rw [hfa] at hf
    simp at hf
    subst hf
    simp [validate_input_output, ha, hfa]
  · intro a r om ha hf hom
    rcases hfa : f a st with ⟨res, st2⟩
    rw [hfa] at hf
    simp at hf
    subst hf
    simp [validate_input_output, ha, hfa, hom]

/-- Witness for C5: a concrete wrapped operation, exercised on input that
fails the input model. -/
theorem c5_validate_input_output_behaviour_witness :
    validate_input_output (fun n : Nat => if n = 0 then none else some n)
      (fun r : Nat => some r) (fun a (s : Nat) => (some a, s + 1)) 0 7
      = (.error .badRequest, 7, 0) :=
  (c5_validate_input_output_behaviour
      (fun n : Nat => if n = 0 then none else some n)
      (fun a (s : Nat) => (some a, s + 1)) 0 7).1 (by decide)
    (fun r : Nat => some r)

/-! ## Claim C6 -/

/-- C6: an update call on either entity whose payload has every field
null — the empty payload included — fails input validation: the payload is
rejected by the `UpdateTodo`/`UpdateTask` models, the wrapped service
operation raises `BadRequest` without invoking the repository (call count
zero), and the store is returned unchanged. -/
theorem c6_all_null_update_rejected {ρ β σ ρ₂ β₂ : Type}
    (d : List (String × Value)) (hd : allValuesNone d = true) (pk : Int)
    (om : ρ → Option β) (f : Int × UpdateTodoPayload → σ → Option ρ × σ)
    (om₂ : ρ₂ → Option β₂)
    (g : Int × UpdateTaskPayload → σ → Option ρ₂ × σ) (st : σ) :
    updateTodoValidate d = none
    ∧ updateTaskValidate d = none
    ∧ validate_input_output updateTodoQueryValidate om f ⟨pk, d⟩ st
        = (.error .badRequest, st, 0)
    ∧ validate_input_output updateTaskQueryValidate om₂ g ⟨pk, d⟩ st
        = (.error .badRequest, st, 0) := by
  have h1 : updateTodoValidate d = none := by
    simp [updateTodoValidate, hd]
  have h2 : updateTaskValidate d = none := by
    simp [updateTaskValidate, hd]
  have h3 : updateTodoQueryValidate ⟨pk, d⟩ = none := by
    by_cases hpk : 0 < pk <;> simp [updateTodoQueryValidate, hpk, h1]
  have h4 : updateTaskQueryValidate ⟨pk, d⟩ = none := by
    by_cases hpk : 0 < pk <;> simp [updateTaskQueryValidate, hpk, h2]
  exact ⟨h1, h2, by simp [validate_input_output, h3],
    by simp [validate_input_output, h4]⟩

/-- Witness for C6: the payload `{"owner": null}` (and, through
`allValuesNone [] = true`, the empty payload is covered by the same
theorem). -/
theorem c6_all_null_update_rejected_witness :
    updateTodoValidate [("owner", Value.vNull)] = none
    ∧ updateTaskValidate [("owner", Value.vNull)] = none
    ∧ validate_input_output updateTodoQueryValidate
        (fun r : Unit => some r)
        (fun _ (s : Nat) => (none, s + 1)) ⟨1, [("owner", Value.vNull)]⟩ 5
        = (.error .badRequest, 5, 0)
    ∧ validate_input_output updateTaskQueryValidate
        (fun r : Unit => some r)
        (fun _ (s : Nat) => (none, s + 1)) ⟨1, [("owner", Value.vNull)]⟩ 5
        = (.error .badRequest, 5, 0) :=
  c6_all_null_update_rejected [("owner", Value.vNull)] (by decide) 1
    (fun r : Unit => some r) (fun _ (s : Nat) => (none, s + 1))
    (fun r : Unit => some r) (fun _ (s : Nat) => (none, s + 1)) 5

/-! ## Claim C9 -/

/-- C9: deleting an absent primary key signals Not Found: `delete_one`
returns `None` and leaves the table unchanged, `Service.delete` returns
`false`, and a second delete of the same absent key yields exactly the
same outcome — idempotent, never an error. -/
theorem c9_delete_absent_idempotent {ρ : Type} (getPk : ρ → Int)
    (table : List ρ) (pk : Int) (habs : ∀ r ∈ table, getPk r ≠ pk) :
    delete_one getPk table pk = (none, table)
    ∧ Service.delete getPk table pk = (false, table)
    ∧ Service.delete getPk (Service.delete getPk table pk).2 pk
        = (false, table) := by
  have hany : table.any (fun r => decide (getPk r = pk)) = false := by
    simp only [List.any_eq_false, decide_eq_true_eq]
    exact habs
  have h1 : delete_one getPk table pk = (none, table) := by
    simp [delete_one, hany]
  refine ⟨h1, ?_, ?_⟩
  · simp [Service.delete, h1, pyBoolOptInt]
  · simp [Service.delete, h1, pyBoolOptInt]

/-- Witness for C9: deleting the absent key 2 from a one-row todos
table. -/
theorem c9_delete_absent_idempotent_witness :
    delete_one TodoRecord.todo_id [⟨1, "alice", TodoStatus.active, 0, 0⟩] 2
      = (none, [⟨1, "alice", TodoStatus.active, 0, 0⟩])
    ∧ Service.delete TodoRecord.todo_id
        [⟨1, "alice", TodoStatus.active, 0, 0⟩] 2
      = (false, [⟨1, "alice", TodoStatus.active, 0, 0⟩])
    ∧ Service.delete TodoRecord.todo_id
        (Service.delete TodoRecord.todo_id
          [⟨1, "alice", TodoStatus.active, 0, 0⟩] 2).2 2
      = (false, [⟨1, "alice", TodoStatus.active, 0, 0⟩]) :=
  c9_delete_absent_idempotent TodoRecord.todo_id
    [⟨1, "alice", TodoStatus.active, 0, 0⟩] 2 (by decide)

/-! ## Claim C4 -/

/-- Entries produced by `optEntry` carry the field's name as their key. -/
theorem fst_of_mem_optEntry {p : String × List Value} {name : String}
    {v : Option (List Value)} (h : p ∈ optEntry name v) : p.1 = name := by
  cases v with
  | none => simp [optEntry] at h
  | some l =>
    simp [optEntry] at h
    simp [h]

/-- Appending a fresh binding makes it the looked-up one. -/
theorem lookup_append_single {β : Type} (d : List (String × β))
    (k : String) (v : β) (h : ∀ p ∈ d, p.1 ≠ k) :
    (d ++ [(k, v)]).lookup k = some v := by
  induction d with
  | nil => simp [List.lookup]
  | cons p rest ih =>
    have hp : (k == p.1) = false := by
      simp only [beq_eq_false_iff_ne, ne_eq]
      exact fun hk => h p (by simp) hk.symm
    simp only [List.cons_append, List.lookup, hp]
    exact ih (fun q hq => h q (by simp [hq]))

/-- The filters dict the `list_tasks` handler derives from client query
arguments never carries a `todo_id` key of its own: `ListTasksQueryArgs`
declares no such field. -/
theorem to_service_query_schema_no_todo_id (q : ListTasksQueryArgs)
    (p : String × List Value) (hp : p ∈ q.to_service_query_schema.2.2) :
    p.1 ≠ "todo_id" := by
  simp only [ListTasksQueryArgs.to_service_query_schema,
    List.mem_append] at hp
  rcases hp with ((((((h | h) | h) | h) | h) | h) | h) | h <;>
    rw [fst_of_mem_optEntry h] <;> decide

/-- C4: for every list-tasks request scoped to a todo, the filters dict the
handler passes to `TaskService.get_many` binds `todo_id` to the path's
todo id, whatever the client supplied; and `TaskService.get_many` rejects
any filters dict lacking a `todo_id` entry as a `BadRequest` before the
repository runs, so no task-list query is ever issued without a `todo_id`
constraint. -/
theorem c4_todo_id_filter_enforced {ρ β σ : Type} :
    (∀ (q : ListTasksQueryArgs) (todo_id : Int),
      (list_tasksFilters q todo_id).lookup "todo_id"
        = some [Value.vInt todo_id])
    ∧ (∀ d, d.lookup "todo_id" = none → tasksFilterValidate d = none)
    ∧ (∀ d (limit offset : Nat) (om : ρ → Option β)
        (f : GetTasksQuery → σ → Option ρ × σ) (st : σ),
        d.lookup "todo_id" = none →
        validate_input_output getTasksQueryValidate om f
          ⟨limit, offset, some d⟩ st = (.error .badRequest, st, 0)) := by
  have hval : ∀ d, List.lookup "todo_id" d = none →
      tasksFilterValidate d = none := by
    intro d h
    by_cases hall : d.all (fun p => decide (p.1 ∈ tasksFilterFieldNames)) <;>
      simp [tasksFilterValidate, hall, h]
  refine ⟨?_, hval, ?_⟩
  · intro q todo_id
    have hne : ∀ p ∈ q.to_service_query_schema.2.2, p.1 ≠ "todo_id" :=
      fun p hp => to_service_query_schema_no_todo_id q p hp
    have hany : q.to_service_query_schema.2.2.any
        (fun p => decide (p.1 = "todo_id")) = false := by
      simp only [List.any_eq_false, decide_eq_true_eq]
      exact hne
    simp only [list_tasksFilters, dictUpdate, hany, Bool.false_eq_true,
      if_false]
    exact lookup_append_single _ _ _ hne
  · intro d limit offset om f st h
    have hq : getTasksQueryValidate ⟨limit, offset, some d⟩ = none := by
      by_cases hl : 0 < limit ∧ limit < MAX_PAGE_LIMIT <;>
        simp [getTasksQueryValidate, hl, hval d h]
    simp [validate_input_output, hq]

/-- Witness for C4: a client query filtering on `brief`, scoped to todo 7,
and a filters dict without `todo_id` being rejected. -/
theorem c4_todo_id_filter_enforced_witness :
    (list_tasksFilters
        { brief := some [Value.vStr "x"], limit := 5 } 7).lookup "todo_id"
      = some [Value.vInt 7]
    ∧ tasksFilterValidate [("brief", [Value.vStr "x"])] = none
    ∧ validate_input_output getTasksQueryValidate
        (fun r : Unit => some r) (fun _ (s : Nat) => (none, s + 1))
        ⟨5, 0, some [("brief", [Value.vStr "x"])]⟩ 3
      = (.error .badRequest, 3, 0) := by
  obtain ⟨h1, h2, h3⟩ :=
    c4_todo_id_filter_enforced (ρ := Unit) (β := Unit) (σ := Nat)
  exact ⟨h1 { brief := some [Value.vStr "x"], limit := 5 } 7,
    h2 [("brief", [Value.vStr "x"])] (by decide),
    h3 [("brief", [Value.vStr "x"])] 5 0 (fun r : Unit => some r)
      (fun _ (s : Nat) => (none, s + 1)) 3 (by decide)⟩

/-! ## Claim C2 -/

/-- The fragment loop of the filter-predicate builder computes, for each
column, the placeholder start index as the start index plus the total
value count of the preceding columns. -/
theorem preparePartsAux_eq (tc : List (String × String)) :
    ∀ (filters : List (String × List Value)) (i : Nat),
    preparePartsAux tc filters i =
      if filters.all (fun p => (lookupCast tc p.1).isSome) then
        some ((List.range filters.length).map (fun k =>
          let p := filters.getD k ("", [])
          columnFragment p.1 ((lookupCast tc p.1).getD "")
            (i + (((filters.take k).map (fun q => q.2.length)).sum))
            p.2.length))
      else none := by
  intro filters
  induction filters with
  | nil => intro i; simp [preparePartsAux]
  | cons p rest ih =>
    intro i
    obtain ⟨col, vals⟩ := p
    cases hc : lookupCast tc col with
    | none => simp [preparePartsAux, hc]
    | some cast =>
      by_cases hall : rest.all (fun q => (lookupCast tc q.1).isSome)
      · have hih := ih (i + vals.length)
        rw [if_pos hall] at hih
        simp only [preparePartsAux, hc, hih, List.all_cons, hall,
          Option.isSome_some, Bool.and_self, if_true, List.length_cons,
          List.range_succ_eq_map, List.map_cons, List.map_map]
        refine congrArg some (congrArg₂ List.cons ?_ ?_)
        · simp [hc, List.getD_cons_zero]
        · apply List.map_congr_left
          intro k _
          simp only [Function.comp_apply, List.getD_cons_succ,
            List.take_succ_cons, List.map_cons, List.sum_cons]
          rw [Nat.add_assoc]
      · have hih := ih (i + vals.length)
        rw [if_neg hall] at hih
        simp [preparePartsAux, hc, hih, hall]

/-- C2: for every filters map whose columns are declared in the cast
table and each map to a non-empty value list, and every start index at
least 1, the filter-predicate builder returns — not an error — the
columns' fragments `col = any (values ($i::cast), ($i+1::cast), ...)` in
iteration order joined with ` AND `, placeholders numbered consecutively
from the start index across all columns (each column starting where the
previous columns' values left off, one placeholder per value), each value
carrying the cast the entity's cast table declares for its column; and in
the entity cast tables string columns carry the empty cast. -/
theorem c2_filter_predicate_numbering (tc : List (String × String))
    (filters : List (String × List Value)) (i : Nat)
    (hdecl : ∀ p ∈ filters, (lookupCast tc p.1).isSome)
    (_hne : ∀ p ∈ filters, p.2 ≠ []) (_hi : 1 ≤ i) :
    prepare_query_args tc filters i
        = some (specJoinedPredicate tc filters i)
    ∧ lookupCast pg_type_casts_todos "owner" = some ""
    ∧ lookupCast pg_type_casts_tasks "brief" = some ""
    ∧ lookupCast pg_type_casts_tasks "contents" = some ""
    ∧ lookupCast pg_type_casts_tasks "category" = some "" := by
  refine ⟨?_, by decide, by decide, by decide, by decide⟩
  have hall : filters.all (fun p => (lookupCast tc p.1).isSome) := by
    rw [List.all_eq_true]
    intro p hp
    simpa using hdecl p hp
  have h := preparePartsAux_eq tc filters i
  rw [if_pos hall] at h
  rw [prepare_query_args, h]
  rfl

/-- Witness for C2: a two-column filter over the tasks cast table,
starting at placeholder 3. -/
theorem c2_filter_predicate_numbering_witness :
    (prepare_query_args pg_type_casts_tasks
        [("status", [Value.vTaskStatus TaskStatus.pending,
          Value.vTaskStatus TaskStatus.complete]),
         ("todo_id", [Value.vInt 1])] 3
      = some (specJoinedPredicate pg_type_casts_tasks
          [("status", [Value.vTaskStatus TaskStatus.pending,
            Value.vTaskStatus TaskStatus.complete]),
           ("todo_id", [Value.vInt 1])] 3))
    ∧ lookupCast pg_type_casts_todos "owner" = some ""
    ∧ lookupCast pg_type_casts_tasks "brief" = some ""
    ∧ lookupCast pg_type_casts_tasks "contents" = some ""
    ∧ lookupCast pg_type_casts_tasks "category" = some "" :=
  c2_filter_predicate_numbering pg_type_casts_tasks
    [("status", [Value.vTaskStatus TaskStatus.pending,
      Value.vTaskStatus TaskStatus.complete]),
     ("todo_id", [Value.vInt 1])] 3 (by decide) (by decide) (by decide)

/-- Ground truth for the embedding: on the witness filters both the
builder and the spec-worded predicate evaluate to the same literal SQL
fragment, with the casts and the consecutive numbering visible. -/
theorem prepare_query_args_concrete :
    prepare_query_args pg_type_casts_tasks
        [("status", [Value.vTaskStatus TaskStatus.pending,
          Value.vTaskStatus TaskStatus.complete]),
         ("todo_id", [Value.vInt 1])] 3
      = some ("status = any (values ($3::task_status), ($4::task_status))"
          ++ " AND todo_id = any (values ($5::int))")
    ∧ specJoinedPredicate pg_type_casts_tasks
        [("status", [Value.vTaskStatus TaskStatus.pending,
          Value.vTaskStatus TaskStatus.complete]),
         ("todo_id", [Value.vInt 1])] 3
      = "status = any (values ($3::task_status), ($4::task_status))"
          ++ " AND todo_id = any (values ($5::int))" := by
  constructor <;> decide

/-! ## Claim C1 -/

/-- Inserting into a sorted list grows its length by one. -/
theorem insertAsc_length (x : Nat) (l : List Nat) :
    (insertAsc x l).length = l.length + 1 := by
  induction l with
  | nil => rfl
  | cons y ys ih => by_cases h : x ≤ y <;> simp [insertAsc, h, ih]

/-- Sorting preserves length. -/
theorem sortAsc_length (l : List Nat) : (sortAsc l).length = l.length := by
  induction l with
  | nil => rfl
  | cons y ys ih =>
    show (insertAsc y (sortAsc ys)).length = ys.length + 1
    rw [insertAsc_length, ih]

/-- Membership in an insertion. -/
theorem mem_insertAsc {x a : Nat} {l : List Nat} :
    a ∈ insertAsc x l ↔ a = x ∨ a ∈ l := by
  induction l with
  | nil => simp [insertAsc]
  | cons y ys ih =>
    by_cases h : x ≤ y
    · simp [insertAsc, h]
    · simp [insertAsc, h, ih]
      tauto

/-- Sorting preserves membership. -/
theorem mem_sortAsc {a : Nat} {l : List Nat} : a ∈ sortAsc l ↔ a ∈ l := by
  induction l with
  | nil => simp [sortAsc]
  | cons y ys ih =>
    show a ∈ insertAsc y (sortAsc ys) ↔ _
    rw [mem_insertAsc, ih]
    simp

/-- C1: the query `fetch_many` generates carries the implicit keyset
predicate `WHERE pk > $2` — placed ahead of any explicit filter
predicates, which are appended after ` AND ` — and orders by the primary
key ascending when no `order_by` is given; consequently, executing the
no-filter query over a table state returns exactly
`min(limit, #rows with pk > offset)` rows, each of whose primary keys
strictly exceeds the supplied offset. -/
theorem c1_fetch_many_keyset (table pk : String)
    (tc : List (String × String)) (filters : List (String × List Value))
    (qa : String) (hqa : prepare_query_args tc filters 3 = some qa)
    (hfne : filters ≠ []) (t : List Nat) (limit offset : Nat) :
    fetchQuery table pk tc [] [] [] =
      some (select_order_limit "*" table ("WHERE " ++ pk ++ " > $2") pk)
    ∧ fetchQuery table pk tc [] [] filters =
      some (select_order_limit "*" table
        ("WHERE " ++ pk ++ " > $2" ++ " AND " ++ qa) pk)
    ∧ (runKeysetSelect t limit offset).length
        = min limit ((t.filter (fun p => offset < p)).length)
    ∧ ∀ p ∈ runKeysetSelect t limit offset, offset < p := by
  have hpk : String.intercalate ", " [pk] = pk := rfl
  refine ⟨?_, ?_, ?_, ?_⟩
  · simp [fetchQuery, hpk]
  · simp [fetchQuery, hfne, hqa, hpk]
  · rw [runKeysetSelect, List.length_take, sortAsc_length]
  · intro p hp
    have h1 : p ∈ sortAsc (t.filter (fun q => offset < q)) :=
      List.mem_of_mem_take hp
    have h2 : p ∈ t.filter (fun q => offset < q) := mem_sortAsc.mp h1
    have := (List.mem_filter.mp h2).2
    simpa using this

/-- Witness for C1: the todos table with an `owner` filter for the query
shape, and the table state `[5, 1, 9, 3]` with `limit 2`, `offset 2` for
the keyset semantics. -/
theorem c1_fetch_many_keyset_witness :
    fetchQuery "todos" "todo_id" pg_type_casts_todos [] [] [] =
      some (select_order_limit "*" "todos"
        ("WHERE " ++ "todo_id" ++ " > $2") "todo_id")
    ∧ fetchQuery "todos" "todo_id" pg_type_casts_todos [] []
        [("owner", [Value.vStr "alice"])] =
      some (select_order_limit "*" "todos"
        ("WHERE " ++ "todo_id" ++ " > $2" ++ " AND "
          ++ "owner = any (values ($3))") "todo_id")
    ∧ (runKeysetSelect [5, 1, 9, 3] 2 2).length
        = min 2 (([5, 1, 9, 3].filter (fun p => 2 < p)).length)
    ∧ ∀ p ∈ runKeysetSelect [5, 1, 9, 3] 2 2, 2 < p :=
  c1_fetch_many_keyset "todos" "todo_id" pg_type_casts_todos
    [("owner", [Value.vStr "alice"])] "owner = any (values ($3))"
    (by decide) (by decide) [5, 1, 9, 3] 2 2

/-! ## Claim C7 -/

/-- C7: for every valid create payload the persisted row equals the
payload on every explicitly supplied field, and every omitted optional
field takes its declared default: Task `status` defaults to `pending`,
`priority` to `low`, `contents` to null, `due` to creation time plus one
day; Todo `status` defaults to `active`. -/
theorem c7_create_defaults (now dbNow newId : Int) (p : CreateTaskIn)
    (v : CreateTaskValidated) (hv : createTaskValidate now p = some v)
    (q : CreateTodoIn) :
    ((insertTaskRow newId dbNow v).brief = p.brief
     ∧ (insertTaskRow newId dbNow v).todo_id = p.todo_id
     ∧ (insertTaskRow newId dbNow v).category = p.category
     ∧ (insertTaskRow newId dbNow v).contents = p.contents
     ∧ (∀ s, p.status = some s → (insertTaskRow newId dbNow v).status = s)
     ∧ (p.status = none →
        (insertTaskRow newId dbNow v).status = TaskStatus.pending)
     ∧ (∀ pr, p.priority = some pr →
        (insertTaskRow newId dbNow v).priority = pr)
     ∧ (p.priority = none →
        (insertTaskRow newId dbNow v).priority = TaskPriority.low)
     ∧ (∀ d, p.due = some d → (insertTaskRow newId dbNow v).due = d)
     ∧ (p.due = none →
        (insertTaskRow newId dbNow v).due = datetime_with_delta oneDay now))
    ∧ ((todoInsertedRow (insertTodoRecord newId dbNow
          (createTodoValidate q).1 (createTodoValidate q).2)).owner
          = q.owner
       ∧ (∀ s, q.status = some s →
          (todoInsertedRow (insertTodoRecord newId dbNow
            (createTodoValidate q).1 (createTodoValidate q).2)).status = s)
       ∧ (q.status = none →
          (todoInsertedRow (insertTodoRecord newId dbNow
            (createTodoValidate q).1 (createTodoValidate q).2)).status
            = TodoStatus.active)) := by
  have hv' : v = ⟨p.brief, p.todo_id, p.contents,
      p.status.getD TaskStatus.pending, p.priority.getD TaskPriority.low,
      p.category, p.due.getD (datetime_with_delta oneDay now)⟩ := by
    by_cases h : 0 < p.todo_id
    · rw [createTaskValidate, if_pos h] at hv
      exact (Option.some.inj hv).symm
    · rw [createTaskValidate, if_neg h] at hv
      exact absurd hv (by simp)
  subst hv'
  refine ⟨⟨rfl, rfl, rfl, rfl, ?_, ?_, ?_, ?_, ?_, ?_⟩, rfl, ?_, ?_⟩
  · intro s hs; simp [insertTaskRow, hs]
  · intro hs; simp [insertTaskRow, hs]
  · intro pr hpr; simp [insertTaskRow, hpr]
  · intro hpr; simp [insertTaskRow, hpr]
  · intro d hd; simp [insertTaskRow, hd]
  · intro hd; simp [insertTaskRow, hd]
  · intro s hs
    simp [createTodoValidate, todoInsertedRow, insertTodoRecord, hs]
  · intro hs
    simp [createTodoValidate, todoInsertedRow, insertTodoRecord, hs]

/-- Witness for C7: a Task payload supplying only the required fields and
a Todo payload omitting `status`, validated at time 100. -/
theorem c7_create_defaults_witness :
    ((insertTaskRow 11 200 ⟨"x", 1, none, TaskStatus.pending,
        TaskPriority.low, "y", 86500⟩).brief = "x"
     ∧ (insertTaskRow 11 200 ⟨"x", 1, none, TaskStatus.pending,
        TaskPriority.low, "y", 86500⟩).todo_id = 1
     ∧ (insertTaskRow 11 200 ⟨"x", 1, none, TaskStatus.pending,
        TaskPriority.low, "y", 86500⟩).category = "y"
     ∧ (insertTaskRow 11 200 ⟨"x", 1, none, TaskStatus.pending,
        TaskPriority.low, "y", 86500⟩).contents = none
     ∧ (∀ s, (none : Option TaskStatus) = some s →
        (insertTaskRow 11 200 ⟨"x", 1, none, TaskStatus.pending,
          TaskPriority.low, "y", 86500⟩).status = s)
     ∧ ((none : Option TaskStatus) = none →
        (insertTaskRow 11 200 ⟨"x", 1, none, TaskStatus.pending,
          TaskPriority.low, "y", 86500⟩).status = TaskStatus.pending)
     ∧ (∀ pr, (none : Option TaskPriority) = some pr →
        (insertTaskRow 11 200 ⟨"x", 1, none, TaskStatus.pending,
          TaskPriority.low, "y", 86500⟩).priority = pr)
     ∧ ((none : Option TaskPriority) = none →
        (insertTaskRow 11 200 ⟨"x", 1, none, TaskStatus.pending,
          TaskPriority.low, "y", 86500⟩).priority = TaskPriority.low)
     ∧ (∀ d, (none : Option Int) = some d →
        (insertTaskRow 11 200 ⟨"x", 1, none, TaskStatus.pending,
          TaskPriority.low, "y", 86500⟩).due = d)
     ∧ ((none : Option Int) = none →
        (insertTaskRow 11 200 ⟨"x", 1, none, TaskStatus.pending,
          TaskPriority.low, "y", 86500⟩).due
          = datetime_with_delta oneDay 100))
    ∧ ((todoInsertedRow (insertTodoRecord 11 200
          (createTodoValidate ⟨"alice", none⟩).1
          (createTodoValidate ⟨"alice", none⟩).2)).owner = "alice"
       ∧ (∀ s, (⟨"alice", none⟩ : CreateTodoIn).status = some s →
          (todoInsertedRow (insertTodoRecord 11 200
            (createTodoValidate ⟨"alice", none⟩).1
            (createTodoValidate ⟨"alice", none⟩).2)).status = s)
       ∧ ((⟨"alice", none⟩ : CreateTodoIn).status = none →
          (todoInsertedRow (insertTodoRecord 11 200
            (createTodoValidate ⟨"alice", none⟩).1
            (createTodoValidate ⟨"alice", none⟩).2)).status
            = TodoStatus.active)) :=
  c7_create_defaults 100 200 11 ⟨"x", 1, none, none, none, "y", none⟩
    ⟨"x", 1, none, TaskStatus.pending, TaskPriority.low, "y", 86500⟩
    (by decide) ⟨"alice", none⟩

/-! ## Claim C8 -/

/-- C8: `TodoRepository.insert_one` returns a row whose `tasks` field is
null (not requested), `fetch_one` with `prefetch_tasks = 0` likewise,
while `fetch_one` with `prefetch_tasks > 0` on a todo with no child tasks
returns `tasks = []` (requested, none found); and the `Todo` output model
preserves this null-versus-empty distinction. -/
theorem c8_tasks_null_vs_empty (db : Db) (tid newId dbNow : Int)
    (own : String) (st : TodoStatus) (r0 : TodoRecord) (n : Nat)
    (hn : n ≠ 0) (hfound : findTodo db.todos tid = some r0)
    (hnochild : ∀ t ∈ db.tasks, t.todo_id ≠ tid) (hpos : 0 < r0.todo_id) :
    (todoInsertedRow (insertTodoRecord newId dbNow own st)).tasks = none
    ∧ TodoRepository.fetch_one db tid 0 = some
        ⟨r0.todo_id, r0.owner, r0.status, r0.created_at, r0.updated_at,
          none⟩
    ∧ TodoRepository.fetch_one db tid n = some
        ⟨r0.todo_id, r0.owner, r0.status, r0.created_at, r0.updated_at,
          some []⟩
    ∧ todoOutputValidate ⟨r0.todo_id, r0.owner, r0.status, r0.created_at,
        r0.updated_at, none⟩
      = some ⟨r0.todo_id, r0.owner, r0.status, r0.created_at,
          r0.updated_at, none⟩
    ∧ todoOutputValidate ⟨r0.todo_id, r0.owner, r0.status, r0.created_at,
        r0.updated_at, some []⟩
      = some ⟨r0.todo_id, r0.owner, r0.status, r0.created_at,
          r0.updated_at, some []⟩ := by
  have hfilter : db.tasks.filter (fun t => t.todo_id = tid) = [] := by
    rw [List.filter_eq_nil_iff]
    intro a ha
    simpa using hnochild a ha
  have hpre : prefetchTasks db.tasks tid n = [] := by
    simp [prefetchTasks, hfilter, sortByTaskId]
  refine ⟨rfl, ?_, ?_, ?_, ?_⟩
  · simp [TodoRepository.fetch_one, hfound]
  · simp [TodoRepository.fetch_one, hfound, hn, hpre]
  · simp [todoOutputValidate, hpos]
  · simp [todoOutputValidate, hpos, traverseOpt]

/-- Witness for C8: a one-todo database with a single task belonging to a
different todo, prefetching up to 3 tasks of todo 1. -/
theorem c8_tasks_null_vs_empty_witness :
    (todoInsertedRow (insertTodoRecord 4 50 "bob" TodoStatus.active)).tasks
      = none
    ∧ TodoRepository.fetch_one
        ⟨[⟨1, "alice", TodoStatus.active, 0, 0⟩],
         [⟨9, "b", 2, none, TaskStatus.pending, TaskPriority.low, "c",
           7, 0, 0⟩]⟩ 1 0
      = some ⟨1, "alice", TodoStatus.active, 0, 0, none⟩
    ∧ TodoRepository.fetch_one
        ⟨[⟨1, "alice", TodoStatus.active, 0, 0⟩],
         [⟨9, "b", 2, none, TaskStatus.pending, TaskPriority.low, "c",
           7, 0, 0⟩]⟩ 1 3
      = some ⟨1, "alice", TodoStatus.active, 0, 0, some []⟩
    ∧ todoOutputValidate ⟨1, "alice", TodoStatus.active, 0, 0, none⟩
      = some ⟨1, "alice", TodoStatus.active, 0, 0, none⟩
    ∧ todoOutputValidate ⟨1, "alice", TodoStatus.active, 0, 0, some []⟩
      = some ⟨1, "alice", TodoStatus.active, 0, 0, some []⟩ :=
  c8_tasks_null_vs_empty
    ⟨[⟨1, "alice", TodoStatus.active, 0, 0⟩],
     [⟨9, "b", 2, none, TaskStatus.pending, TaskPriority.low, "c",
       7, 0, 0⟩]⟩ 1 4 50 "bob" TodoStatus.active
    ⟨1, "alice", TodoStatus.active, 0, 0⟩ 3
    (by decide) (by decide) (by decide) (by decide)

/-! ## Claim C10 -/

/-- The enumerated SET fragments only look at the keys, so enumerating the
payload is enumerating its key list. -/
theorem enumFrom_map_key_fragment :
    ∀ (l : List (String × Value)) (n : Nat),
    (l.enumFrom n).map (fun p => p.2.1 ++ " = $" ++ toString (p.1 + 2))
      = ((l.map Prod.fst).enumFrom n).map
          (fun p => p.2 ++ " = $" ++ toString (p.1 + 2)) := by
  intro l
  induction l with
  | nil => intro n; rfl
  | cons p rest ih =>
    intro n
    simp only [List.map_cons, List.enumFrom_cons, List.map_cons]
    rw [ih (n + 1)]

/-- The generated UPDATE's SET clause is determined by the payload's key
list: each key in iteration order with placeholders from `$2`. -/
theorem generate_update_eq_spec (t pk : String)
    (ud : List (String × Value)) :
    generate_update t pk ud
      = update_table t (setClauseSpec (ud.map Prod.fst)) pk := by
  unfold generate_update setClauseSpec List.enum
  rw [enumFrom_map_key_fragment]

/-- Keys of a dumped optional field. -/
theorem optDump_map_fst {γ : Type} (name : String) (f : γ → Value)
    (o : Option γ) :
    (optDump name f o).map Prod.fst
      = if o.isSome then [name] else [] := by
  cases o <;> rfl

/-- The keys of an `UpdateTodo` dump are exactly its non-null field
names. -/
theorem dump_names_todo (u : UpdateTodoPayload) :
    u.dumpExcludeNone.map Prod.fst = u.nonNullNames := by
  simp only [UpdateTodoPayload.dumpExcludeNone,
    UpdateTodoPayload.nonNullNames, List.map_append, optDump_map_fst]

/-- The keys of an `UpdateTask` dump are exactly its non-null field
names. -/
theorem dump_names_task (u : UpdateTaskPayload) :
    u.dumpExcludeNone.map Prod.fst = u.nonNullNames := by
  simp only [UpdateTaskPayload.dumpExcludeNone,
    UpdateTaskPayload.nonNullNames, List.map_append, optDump_map_fst]

/-- Values in a dumped optional field come from the field's constructor,
never `null`. -/
theorem optDump_snd_ne_null {γ : Type} {name : String} {f : γ → Value}
    {o : Option γ} {p : String × Value}
    (hf : ∀ x, f x ≠ Value.vNull) (hp : p ∈ optDump name f o) :
    p.2 ≠ Value.vNull := by
  cases o with
  | none => simp [optDump] at hp
  | some x =>
    simp [optDump] at hp
    rw [hp]
    exact hf x

/-- An `UpdateTodo` dump contains no null values. -/
theorem dump_no_null_todo (u : UpdateTodoPayload) :
    ∀ p ∈ u.dumpExcludeNone, p.2 ≠ Value.vNull := by
  intro p hp
  simp only [UpdateTodoPayload.dumpExcludeNone, List.mem_append] at hp
  rcases hp with ((h | h) | h) | h
  · exact optDump_snd_ne_null (fun x => by simp) h
  · exact optDump_snd_ne_null (fun x => by simp) h
  · exact optDump_snd_ne_null (fun x => by simp) h
  · exact optDump_snd_ne_null (fun x => by simp) h

/-- An `UpdateTask` dump contains no null values. -/
theorem dump_no_null_task (u : UpdateTaskPayload) :
    ∀ p ∈ u.dumpExcludeNone, p.2 ≠ Value.vNull := by
  intro p hp
  simp only [UpdateTaskPayload.dumpExcludeNone, List.mem_append] at hp
  rcases hp with (((((((h | h) | h) | h) | h) | h) | h) | h) | h <;>
    exact optDump_snd_ne_null (fun x => by simp) h

/-- Columns the payload does not name are untouched by the UPDATE. -/
theorem applyUpdate_lookup_none (row ud : List (String × Value))
    (col : String) (h : ud.lookup col = none) :
    (applyUpdate row ud).lookup col = row.lookup col := by
  induction row with
  | nil => rfl
  | cons p rest ih =>
    obtain ⟨c, v⟩ := p
    by_cases hc : col = c
    · subst hc
      cases hud : ud.lookup col with
      | none => simp [applyUpdate, List.lookup, hud]
      | some w => rw [hud] at h; exact absurd h (by simp)
    · have hbeq : (col == c) = false := by
        simp only [beq_eq_false_iff_ne, ne_eq]; exact hc
      cases hud : ud.lookup c <;>
        simpa [applyUpdate, List.lookup, hud, hbeq] using ih

/-- A null can only be read back from a column that already held null: the
UPDATE never writes null when the payload has none. -/
theorem applyUpdate_no_new_null (row ud : List (String × Value))
    (hud : ∀ p ∈ ud, p.2 ≠ Value.vNull) (col : String)
    (h : (applyUpdate row ud).lookup col = some Value.vNull) :
    row.lookup col = some Value.vNull := by
  induction row with
  | nil => simp [applyUpdate] at h
  | cons p rest ih =>
    obtain ⟨c, v⟩ := p
    by_cases hc : col = c
    · subst hc
      cases hud' : ud.lookup col with
      | none => simpa [applyUpdate, List.lookup, hud'] using h
      | some w =>
        have hw : w ≠ Value.vNull :=
          hud (col, w) (mem_of_lookup_eq_some hud')
        rw [applyUpdate] at h
        simp only [List.map_cons, hud', List.lookup, beq_self_eq_true] at h
        exact absurd (Option.some.inj h) hw
    · have hbeq : (col == c) = false := by
        simp only [beq_eq_false_iff_ne, ne_eq]; exact hc
      cases hud' : ud.lookup c with
      | none =>
        rw [List.lookup, hbeq]
        exact ih (by simpa [applyUpdate, List.lookup, hud', hbeq] using h)
      | some w =>
        rw [List.lookup, hbeq]
        exact ih (by simpa [applyUpdate, List.lookup, hud', hbeq] using h)

/-- C10: after input validation, null-valued fields are stripped
(`exclude_none`) before the UPDATE statement is generated, so the SET
clause names exactly the payload's non-null fields with placeholders `$2`
onward in iteration order; a column the payload does not name is not
written by the statement, and a partial update can never set a column to
null. -/
theorem c10_partial_update_frame (u : UpdateTaskPayload)
    (w : UpdateTodoPayload) (row ud : List (String × Value))
    (col : String) :
    taskUpdateQuery u
      = update_table "tasks" (setClauseSpec u.nonNullNames) "task_id"
    ∧ todoUpdateQuery w
      = update_table "todos" (setClauseSpec w.nonNullNames) "todo_id"
    ∧ (∀ p ∈ u.dumpExcludeNone, p.2 ≠ Value.vNull)
    ∧ (∀ p ∈ w.dumpExcludeNone, p.2 ≠ Value.vNull)
    ∧ (ud.lookup col = none →
       (applyUpdate row ud).lookup col = row.lookup col)
    ∧ ((∀ p ∈ ud, p.2 ≠ Value.vNull) →
       (applyUpdate row ud).lookup col = some Value.vNull →
       row.lookup col = some Value.vNull) := by
  refine ⟨?_, ?_, dump_no_null_task u, dump_no_null_todo w,
    applyUpdate_lookup_none row ud col,
    fun hud h => applyUpdate_no_new_null row ud hud col h⟩
  · rw [taskUpdateQuery, generate_update_eq_spec, dump_names_task]
  · rw [todoUpdateQuery, generate_update_eq_spec, dump_names_todo]

/-- Witness for C10: the payload `{status: complete}` against a row with
an unnamed `brief` column. -/
theorem c10_partial_update_frame_witness :
    taskUpdateQuery
        { status := some TaskStatus.complete }
      = update_table "tasks"
          (setClauseSpec
            (UpdateTaskPayload.nonNullNames
              { status := some TaskStatus.complete })) "task_id"
    ∧ todoUpdateQuery { owner := some "bob" }
      = update_table "todos"
          (setClauseSpec
            (UpdateTodoPayload.nonNullNames { owner := some "bob" }))
          "todo_id"
    ∧ (∀ p ∈ UpdateTaskPayload.dumpExcludeNone
          { status := some TaskStatus.complete }, p.2 ≠ Value.vNull)
    ∧ (∀ p ∈ UpdateTodoPayload.dumpExcludeNone { owner := some "bob" },
        p.2 ≠ Value.vNull)
    ∧ (List.lookup "brief"
          [("status", Value.vTaskStatus TaskStatus.complete)] = none →
       (applyUpdate [("brief", Value.vStr "b")]
          [("status", Value.vTaskStatus TaskStatus.complete)]).lookup
            "brief"
         = List.lookup "brief" [("brief", Value.vStr "b")])
    ∧ ((∀ p ∈ [("status", Value.vTaskStatus TaskStatus.complete)],
          p.2 ≠ Value.vNull) →
       (applyUpdate [("brief", Value.vStr "b")]
          [("status", Value.vTaskStatus TaskStatus.complete)]).lookup
            "brief" = some Value.vNull →
       List.lookup "brief" [("brief", Value.vStr "b")]
         = some Value.vNull) :=
  c10_partial_update_frame { status := some TaskStatus.complete }
    { owner := some "bob" } [("brief", Value.vStr "b")]
    [("status", Value.vTaskStatus TaskStatus.complete)] "brief"

end TodoApp
